import Mathlib

/-!
Shallow embedding of the CRM single-page application (`src/App.jsx`).

Conventions of the embedding:
* JavaScript numbers are modelled as `Option ℚ`, with `none` playing the
  role of `NaN`; machine floating point is not needed because every number
  the claims touch is produced by decimal parsing or by integer literals.
* `Number(s)` and `parseFloat(s)` are modelled for decimal literals
  (optional sign, integer part, optional fractional part); exponents,
  hexadecimal and `Infinity` forms are not modelled, and `parseFloat`
  ignores trailing non-numeric characters exactly as in JavaScript.
* Firestore `Timestamp` values written on save are kept as the raw date
  string (`Option String`); fetched `nextFollowUpDate` values are epoch
  milliseconds (`Option Nat`) because the board compares them numerically.
* Each event handler becomes a pure function from its inputs (form state,
  the external AI endpoint's reply, the current clock value) to the store
  operation it issues and/or the next local state.
-/

namespace CRM

open scoped List

/-! ### JavaScript number parsing (`Number`, `parseFloat`) -/

/-- Whitespace characters skipped by `parseFloat` / trimmed by `Number`. -/
def isWs (c : Char) : Bool :=
  c = ' ' || c = '\t' || c = '\n' || c = '\r'

/-- Longest prefix of decimal digits, and the rest of the characters. -/
def splitDigits : List Char → List Char × List Char
  | [] => ([], [])
  | c :: cs =>
    if c.isDigit then
      let p := splitDigits cs
      (c :: p.1, p.2)
    else ([], c :: cs)

/-- Numeric value of a digit string. -/
def digitsToNat (ds : List Char) : Nat :=
  ds.foldl (fun n c => n * 10 + (c.toNat - 48)) 0

/-- Parse an optionally signed decimal literal at the head of `cs`,
returning its value and the unconsumed characters; `none` when not even
one digit is present (JavaScript `NaN`). -/
def parseSignedDec (cs : List Char) : Option (ℚ × List Char) :=
  let sp : Bool × List Char :=
    match cs with
    | '-' :: r => (true, r)
    | '+' :: r => (false, r)
    | r => (false, r)
  let ip := splitDigits sp.2
  let fp : List Char × List Char :=
    match ip.2 with
    | '.' :: r => splitDigits r
    | r => ([], r)
  if ip.1.length = 0 ∧ fp.1.length = 0 then none
  else
    let mag : ℚ :=
      mkRat (digitsToNat ip.1 * 10 ^ fp.1.length + digitsToNat fp.1) (10 ^ fp.1.length)
    some ((if sp.1 then -mag else mag), fp.2)

/-- JavaScript `parseFloat`: skip leading whitespace, parse a decimal
prefix, ignore the rest; `none` is `NaN`. -/
def parseFloat (s : String) : Option ℚ :=
  match parseSignedDec (s.data.dropWhile isWs) with
  | some p => some p.1
  | none => none

/-- JavaScript `Number(s)` on a string: trims whitespace, the empty string
is `0`, otherwise the whole remainder must be a decimal literal; `none` is
`NaN`. -/
def jsNumber (s : String) : Option ℚ :=
  let cs := ((s.data.dropWhile isWs).reverse.dropWhile isWs).reverse
  if cs.isEmpty then some 0
  else
    match parseSignedDec cs with
    | some p => if p.2.isEmpty then some p.1 else none
    | none => none

/-- JavaScript `String.prototype.trim`: strip whitespace at both ends. -/
def jsTrim (s : String) : String :=
  ⟨((s.data.dropWhile isWs).reverse.dropWhile isWs).reverse⟩

/-- JavaScript `Number(s) || 0`: `NaN` (and `0` itself) collapse to `0`. -/
def numOr0 (s : String) : ℚ :=
  match jsNumber s with
  | some v => v
  | none => 0

/-! ### Data model -/

/-- One entry of an account's `notes` sequence: `{text, timestamp, sentiment?}`. -/
structure Note where
  text : String
  timestamp : String
  sentiment : Option String
deriving DecidableEq, Repr

/-- An account document as fetched by the board's snapshot listener
(`{...doc.data(), id: doc.id}`); `nextFollowUpDate` is epoch milliseconds. -/
structure Account where
  id : String
  companyName : String
  stage : String
  value : Option ℚ
  monthlyValue : Option ℚ
  dealScore : Option ℚ
  nextFollowUpDate : Option Nat
  notes : List Note
deriving DecidableEq, Repr

/-- Local form state of the `AccountForm` component; numeric and date
fields are strings because they are bound to text inputs. -/
structure FormData where
  companyName : String
  servicesNeeded : String
  value : String
  monthlyValue : String
  expectedCloseDate : String
  nextFollowUpDate : String
  contactName : String
  contactTitle : String
  contactEmail : String
  contactPhone : String
  industry : String
  website : String
  companySize : String
  leadSource : String
  stage : String
  notes : List Note
  lostReason : String
  dealScore : Option ℚ
deriving DecidableEq, Repr

/-- The nine fixed funnel stages, in board order. -/
def funnelStages : List String :=
  ["Business Intel", "New Leads", "Qualified Opportunities", "Needs Analysis",
   "Proposal Sent", "Negotiation", "Closed Won", "Closed Lost", "Nurturing"]

/-! ### Deal-score recomputation (`recalculateDealScore`) -/

/-- `recalculateDealScore(data)`: terminal stages are fixed; otherwise the
external API is consulted and the reply is `scoreText ? parseFloat(scoreText) : 50`.
`scoreText = none` models an absent reply (`callGeminiAPI` returned
`null`/`undefined`), and the empty string is likewise falsy. -/
def recalculateDealScore (data : FormData) (scoreText : Option String) : Option ℚ :=
  if data.stage = "Closed Won" then some 100
  else if data.stage = "Closed Lost" then some 0
  else
    match scoreText with
    | none => some 50
    | some t => if t = "" then some 50 else parseFloat t

/-! ### Saving (`handleSave`, `handleAddAccount`, `handleUpdateAccount`) -/

/-- `handleSave`: copies the form, defaults `servicesNeeded` to `"N/A"`
for Business Intel, then overwrites `dealScore` with the recomputed score
before handing the data to `onSave`. -/
def handleSave (f : FormData) (aiResp : Option String) : FormData :=
  let u := if f.stage = "Business Intel" ∧ f.servicesNeeded = "" then
      { f with servicesNeeded := "N/A" }
    else f
  { u with dealScore := recalculateDealScore u aiResp }

/-- `s ? Timestamp.fromDate(new Date(s)) : null` — the timestamp itself is
kept as the raw date string. -/
def toTimestamp (s : String) : Option String :=
  if s = "" then none else some s

/-- Document written by `addDoc` in `handleAddAccount`. -/
structure StoredDoc where
  companyName : String
  servicesNeeded : String
  contactName : String
  contactTitle : String
  contactEmail : String
  contactPhone : String
  industry : String
  website : String
  companySize : String
  leadSource : String
  lostReason : String
  stage : String
  createdAt : String
  notes : List Note
  value : ℚ
  monthlyValue : ℚ
  dealScore : Option ℚ
  expectedCloseDate : Option String
  nextFollowUpDate : Option String
deriving DecidableEq, Repr

/-- `handleAddAccount(newAccount)`: spreads the caller's fields and then
overrides `stage`, `createdAt`, `notes`, the coerced numeric fields,
`dealScore` and the date fields (later keys win over the spread). -/
def handleAddAccount (newAccount : FormData) (now : String) : StoredDoc :=
  { companyName := newAccount.companyName
    servicesNeeded := newAccount.servicesNeeded
    contactName := newAccount.contactName
    contactTitle := newAccount.contactTitle
    contactEmail := newAccount.contactEmail
    contactPhone := newAccount.contactPhone
    industry := newAccount.industry
    website := newAccount.website
    companySize := newAccount.companySize
    leadSource := newAccount.leadSource
    lostReason := newAccount.lostReason
    stage := "Business Intel"
    createdAt := now
    notes := []
    value := numOr0 newAccount.value
    monthlyValue := numOr0 newAccount.monthlyValue
    dealScore := some 50
    expectedCloseDate := toTimestamp newAccount.expectedCloseDate
    nextFollowUpDate := toTimestamp newAccount.nextFollowUpDate }

/-- Payload written by `updateDoc` in `handleUpdateAccount`: the spread of
the form data with the numeric fields coerced and the date strings
converted; `createdAt` is not touched. -/
structure UpdateFields where
  companyName : String
  servicesNeeded : String
  contactName : String
  contactTitle : String
  contactEmail : String
  contactPhone : String
  industry : String
  website : String
  companySize : String
  leadSource : String
  lostReason : String
  stage : String
  notes : List Note
  value : ℚ
  monthlyValue : ℚ
  dealScore : Option ℚ
  expectedCloseDate : Option String
  nextFollowUpDate : Option String
deriving DecidableEq, Repr

/-- `handleUpdateAccount(updatedAccount)`. -/
def handleUpdateAccount (u : FormData) : UpdateFields :=
  { companyName := u.companyName
    servicesNeeded := u.servicesNeeded
    contactName := u.contactName
    contactTitle := u.contactTitle
    contactEmail := u.contactEmail
    contactPhone := u.contactPhone
    industry := u.industry
    website := u.website
    companySize := u.companySize
    leadSource := u.leadSource
    lostReason := u.lostReason
    stage := u.stage
    notes := u.notes
    value := numOr0 u.value
    monthlyValue := numOr0 u.monthlyValue
    dealScore := u.dealScore
    expectedCloseDate := toTimestamp u.expectedCloseDate
    nextFollowUpDate := toTimestamp u.nextFollowUpDate }

/-! ### Pipeline board: snapshot organization and aggregates -/

/-- `new Date(8640000000000000)` in epoch milliseconds: the sentinel used
for accounts without a follow-up date. -/
def sentinelMs : Nat := 8640000000000000

/-- Sort key of the snapshot comparator:
`a.nextFollowUpDate?.toDate() || new Date(8640000000000000)`. -/
def followUpKey (a : Account) : Nat :=
  a.nextFollowUpDate.getD sentinelMs

/-- The comparator's order (`dateA - dateB` is non-positive exactly when
the keys are in order); `Array.prototype.sort` is a stable sort, realized
here by insertion sort. -/
def followUpLE (a b : Account) : Prop :=
  followUpKey a ≤ followUpKey b

instance : DecidableRel followUpLE := fun a b =>
  inferInstanceAs (Decidable (followUpKey a ≤ followUpKey b))

instance : IsTotal Account followUpLE :=
  ⟨fun a b => Nat.le_total (followUpKey a) (followUpKey b)⟩

instance : IsTrans Account followUpLE :=
  ⟨fun _ _ _ hab hbc => Nat.le_trans hab hbc⟩

/-- Stable sort of one stage's accounts by follow-up date. -/
def sortByFollowUp (l : List Account) : List Account :=
  l.insertionSort followUpLE

/-- The `onSnapshot` handler's `organizedAccounts`: one bucket per funnel
stage, each bucket the stage's accounts sorted by follow-up date. -/
def organizedAccounts (fetched : List Account) : List (String × List Account) :=
  funnelStages.map fun st =>
    (st, sortByFollowUp (fetched.filter fun a => a.stage = st))

/-- Stages excluded from the aggregate metrics. -/
def isActiveStage (s : String) : Bool :=
  s ≠ "Closed Won" && s ≠ "Closed Lost" && s ≠ "Business Intel"

/-- `acc.value || 0`: a missing (or `NaN`) value counts as `0`. -/
def valueOrZero (a : Account) : ℚ :=
  match a.value with
  | some v => v
  | none => 0

/-- `totalPipelineValue`: flatten the board's buckets, keep the active
stages, and fold the values (`reduce((sum, acc) => sum + (acc.value || 0), 0)`). -/
def totalPipelineValue (board : List (String × List Account)) : ℚ :=
  (((board.map Prod.snd).flatten).filter fun a => isActiveStage a.stage).foldl
    (fun sum acc => sum + valueOrZero acc) 0

/-! ### Client-side form validation and submission -/

/-- Constraint validation induced by the form's `required` attributes:
`companyName`, `servicesNeeded`, `value` and `monthlyValue` are always
required; the `lostReason` textarea is rendered (and required) exactly
when the stage is Closed Lost.  Further browser checks (email format,
number syntax) only make validation stricter and are not modelled. -/
def formValid (f : FormData) : Bool :=
  f.companyName ≠ "" && f.servicesNeeded ≠ "" && f.value ≠ "" && f.monthlyValue ≠ "" &&
    (f.stage ≠ "Closed Lost" || f.lostReason ≠ "")

/-- Store write produced by a form submission. -/
inductive StoreWrite where
  | create (docFields : StoredDoc)
  | update (payload : UpdateFields)
deriving DecidableEq, Repr

/-- A form submission: the browser fires the submit event (and hence
`handleSave`) only when constraint validation passes; `handleSave` then
routes to `handleUpdateAccount` or `handleAddAccount` depending on
whether an existing account is being edited. -/
def submitForm (f : FormData) (editingExisting : Bool) (aiResp : Option String)
    (now : String) : Option StoreWrite :=
  if formValid f then
    let u := handleSave f aiResp
    some (if editingExisting then .update (handleUpdateAccount u)
          else .create (handleAddAccount u now))
  else none

/-! ### Note append (`handleAddNote`) -/

/-- The single-field `updateDoc(docRef, { notes: updatedNotes })` payload. -/
structure NotesWrite where
  docId : String
  notes : List Note
deriving DecidableEq, Repr

/-- `handleAddNote`: bails out on a blank note or when no existing account
is being edited; otherwise appends `{text, timestamp}` and issues the
single-field store update. -/
def handleAddNote (newNote : String) (account : Option Account)
    (formNotes : List Note) (now : String) : Option NotesWrite :=
  if jsTrim newNote = "" then none
  else
    match account with
    | none => none
    | some acc =>
      some ⟨acc.id, formNotes ++ [{ text := newNote, timestamp := now, sentiment := none }]⟩

/-! ### Drag-and-drop stage change (`handleDragEnd`) -/

/-- A field value in an `updateDoc` payload. -/
inductive FieldVal where
  | str (s : String)
  | num (q : Option ℚ)
  | dateMs (d : Option Nat)
  | notesVal (ns : List Note)
deriving DecidableEq, Repr

/-- An `updateDoc` payload: the literal field/value pairs of the object. -/
abbrev UpdatePayload := List (String × FieldVal)

/-- Effect of one payload entry on a document; unknown fields are ignored
(the `Account` model carries only the fields the claims mention). -/
def applyField (d : Account) : String × FieldVal → Account
  | ("stage", .str s) => { d with stage := s }
  | ("companyName", .str s) => { d with companyName := s }
  | ("value", .num q) => { d with value := q }
  | ("monthlyValue", .num q) => { d with monthlyValue := q }
  | ("dealScore", .num q) => { d with dealScore := q }
  | ("nextFollowUpDate", .dateMs t) => { d with nextFollowUpDate := t }
  | ("notes", .notesVal ns) => { d with notes := ns }
  | _ => d

/-- `updateDoc` semantics on a collection: merge the payload into the
document(s) with the addressed id, leave every other document alone. -/
def updateDocIn (store : List Account) (docId : String) (payload : UpdatePayload) :
    List Account :=
  store.map fun d => if d.id = docId then payload.foldl applyField d else d

/-- `handleDragEnd`: with a dragged item and a signed-in user, issue one
update of the payload `{ stage: stageName }` against that item's document. -/
def handleDragEnd (dragItem : Option Account) (userPresent : Bool)
    (stageName : String) : Option (String × UpdatePayload) :=
  match dragItem, userPresent with
  | some item, true => some (item.id, [("stage", .str stageName)])
  | _, _ => none

/-- Outcome of the drop: on success the store receives the update, on a
store failure the error is caught (`setError("Failed to update account stage.")`)
and the store is untouched. -/
def handleDragEndApply (dragItem : Option Account) (userPresent : Bool)
    (stageName : String) (store : List Account) (storeFails : Bool) :
    List Account × Option String :=
  match handleDragEnd dragItem userPresent stageName with
  | none => (store, none)
  | some p =>
    if storeFails then (store, some "Failed to update account stage.")
    else (updateDocIn store p.1 p.2, none)

/-! ### Business-card scan (`handleScanBusinessCard`) -/

/-- The contact-extraction JSON object the scan prompt asks for. -/
structure Contact where
  companyName : Option String
  contactName : Option String
  contactTitle : Option String
  contactEmail : Option String
  contactPhone : Option String
deriving DecidableEq, Repr

/-- One left-to-right pass deleting every leftmost, non-overlapping match
of either pattern (the semantics of a global regex alternation). `fuel`
bounds the recursion by the input length; each step consumes at least one
character. -/
def deleteMatches (pat1 pat2 : List Char) : Nat → List Char → List Char
  | 0, l => l
  | _, [] => []
  | fuel + 1, c :: cs =>
    if pat1 ≠ [] ∧ pat1.isPrefixOf (c :: cs) then
      deleteMatches pat1 pat2 fuel (List.drop (pat1.length - 1) cs)
    else if pat2 ≠ [] ∧ pat2.isPrefixOf (c :: cs) then
      deleteMatches pat1 pat2 fuel (List.drop (pat2.length - 1) cs)
    else c :: deleteMatches pat1 pat2 fuel cs

/-- `jsonText.replace(/```json\n|\n```/g, '')`. -/
def cleanJson (s : String) : String :=
  ⟨deleteMatches "```json\n".data "\n```".data s.data.length s.data⟩

/-- The `setFormData` merge: spread of the parsed object followed by
explicit `|| ''` defaults for the five contact fields. -/
def mergeContact (f : FormData) (p : Contact) : FormData :=
  { f with
    companyName := p.companyName.getD ""
    contactName := p.contactName.getD ""
    contactTitle := p.contactTitle.getD ""
    contactEmail := p.contactEmail.getD ""
    contactPhone := p.contactPhone.getD "" }

/-- Observable state of the scan flow: the form, the two busy indicators,
the `console.error` log, and whether an exception escaped the handler. -/
structure ScanState where
  formData : FormData
  loadingAI : Bool
  dictationStatus : String
  consoleErrors : List String
  threw : Bool
deriving DecidableEq, Repr

/-- The `reader.onload` continuation.  `parse` stands for `JSON.parse`
(a platform builtin): `none` means the parse throws.  On a throw the
remaining statements — including `setLoadingAI(false)` and
`setDictationStatus('')` — never run, and no `console.error` is reached. -/
def scanOnLoad (parse : String → Option Contact) (resp : Option String)
    (st : ScanState) : ScanState :=
  match resp with
  | none =>
    { st with consoleErrors := st.consoleErrors ++ ["AI extraction failed: No text in response."]
              loadingAI := false, dictationStatus := "" }
  | some t =>
    if t = "" then
      { st with consoleErrors := st.consoleErrors ++ ["AI extraction failed: No text in response."]
                loadingAI := false, dictationStatus := "" }
    else
      match parse (cleanJson t) with
      | some data =>
        { st with formData := mergeContact st.formData data
                  loadingAI := false, dictationStatus := "" }
      | none => { st with threw := true }

/-- `handleScanBusinessCard` for a chosen file: sets the busy state, then
runs the `onload` continuation with the AI endpoint's reply. -/
def handleScanBusinessCard (parse : String → Option Contact) (resp : Option String)
    (f : FormData) : ScanState :=
  scanOnLoad parse resp
    { formData := f, loadingAI := true, dictationStatus := "Scanning card..."
      consoleErrors := [], threw := false }

/-! ### Sample data for concrete instantiations -/

/-- The `AccountForm` component's create-mode default state. -/
def emptyForm : FormData :=
  { companyName := "", servicesNeeded := "", value := "", monthlyValue := ""
    expectedCloseDate := "", nextFollowUpDate := "", contactName := "", contactTitle := ""
    contactEmail := "", contactPhone := "", industry := "", website := "", companySize := ""
    leadSource := "", stage := "Business Intel", notes := [], lostReason := ""
    dealScore := some 50 }

/-- The spec's creation scenario input. -/
def acmeForm : FormData :=
  { emptyForm with companyName := "Acme", value := "1000", monthlyValue := "100" }

/-- A form for an account sitting in a non-terminal stage. -/
def newLeadForm : FormData :=
  { emptyForm with companyName := "Acme", servicesNeeded := "Web redesign"
                   value := "1000", monthlyValue := "100", stage := "New Leads" }

/-- A form in Closed Won. -/
def wonForm : FormData := { newLeadForm with stage := "Closed Won" }

/-- A form in Closed Lost (no reason given). -/
def lostForm : FormData := { newLeadForm with stage := "Closed Lost" }

/-- A fetched account document. -/
def sampleAccount : Account :=
  { id := "a1", companyName := "Acme", stage := "New Leads", value := some 1000
    monthlyValue := some 100, dealScore := some 50, nextFollowUpDate := none, notes := [] }

/-- A second fetched account document. -/
def otherAccount : Account :=
  { id := "a2", companyName := "Globex", stage := "Negotiation", value := some 500
    monthlyValue := some 50, dealScore := some 70, nextFollowUpDate := some 1700000000000
    notes := [] }

/-- A `JSON.parse` stand-in that always throws. -/
def failingParse : String → Option Contact := fun _ => none

/-- A Closed Won account, excluded from the aggregate metrics. -/
def wonAccount : Account :=
  { id := "a3", companyName := "Initech", stage := "Closed Won", value := some 999
    monthlyValue := some 0, dealScore := some 100, nextFollowUpDate := some 1710000000000
    notes := [] }

/-- A small fetched snapshot used to instantiate the board claims. -/
def demoAccounts : List Account := [sampleAccount, otherAccount, wonAccount]

/-! ### Partition / merge lemmas for the snapshot handler -/

/-- Filtering by the disjunction of two disjoint predicates is a
permutation of the two separate filters concatenated. -/
theorem filter_or_disjoint_perm (p q : Account → Bool) (l : List Account)
    (hdisj : ∀ a, ¬(p a = true ∧ q a = true)) :
    l.filter (fun a => p a || q a) ~ l.filter p ++ l.filter q := by
  induction l with
  | nil => simp
  | cons a l ih =>
    by_cases hp : p a = true
    · have hq : ¬ q a = true := fun hq => hdisj a ⟨hp, hq⟩
      simp only [List.filter_cons, hp, hq, Bool.true_or, if_true, if_false]
      exact ih.cons a
    · by_cases hq : q a = true
      · have hp' : p a = false := Bool.eq_false_iff.mpr hp
        simp only [List.filter_cons, hp', hq, Bool.false_or, if_true, if_false]
        exact (ih.cons a).trans List.perm_middle.symm
      · have hp' : p a = false := Bool.eq_false_iff.mpr hp
        have hq' : q a = false := Bool.eq_false_iff.mpr hq
        simp only [List.filter_cons, hp', hq', Bool.false_or, if_false]
        exact ih

/-- Concatenating the per-stage filters over pairwise-distinct stage
names is a permutation of one filter by membership. -/
theorem flatten_filter_stages_perm (ss : List String) (hnd : ss.Nodup) (l : List Account) :
    (ss.map fun st => l.filter fun a => a.stage = st).flatten ~
      l.filter fun a => decide (a.stage ∈ ss) := by
  induction ss with
  | nil => simp
  | cons st ss ih =>
    have hst : st ∉ ss := (List.nodup_cons.mp hnd).1
    have ih' := ih (List.nodup_cons.mp hnd).2
    simp only [List.map_cons, List.flatten_cons]
    have hdisj : ∀ a : Account,
        ¬(decide (a.stage = st) = true ∧ decide (a.stage ∈ ss) = true) := by
      intro a ⟨h1, h2⟩
      exact hst (of_decide_eq_true h1 ▸ of_decide_eq_true h2)
    have hsplit := filter_or_disjoint_perm (fun a => decide (a.stage = st))
      (fun a => decide (a.stage ∈ ss)) l hdisj
    have hcong : (l.filter fun a => decide (a.stage ∈ st :: ss)) =
        l.filter fun a => decide (a.stage = st) || decide (a.stage ∈ ss) := by
      apply List.filter_congr
      intro a _
      simp [List.mem_cons]
    rw [hcong]
    exact ((List.Perm.refl _).append ih').trans hsplit.symm

/-- Sorting a bucket permutes it. -/
theorem sortByFollowUp_perm (l : List Account) : sortByFollowUp l ~ l :=
  List.perm_insertionSort followUpLE l

/-- Pointwise permutations of the buckets give a permutation of the
flattened board. -/
theorem flatten_map_perm_congr (ss : List String) (f g : String → List Account)
    (h : ∀ st ∈ ss, f st ~ g st) : (ss.map f).flatten ~ (ss.map g).flatten := by
  induction ss with
  | nil => exact List.Perm.refl _
  | cons st ss ih =>
    simp only [List.map_cons, List.flatten_cons]
    exact (h st (List.mem_cons_self st ss)).append
      (ih fun st' hst' => h st' (List.mem_cons_of_mem st hst'))

/-- Re-merging the organized board recovers the fetched snapshot, as a
multiset, provided every account carries one of the nine stage names. -/
theorem organized_flatten_perm (fetched : List Account)
    (h : ∀ a ∈ fetched, a.stage ∈ funnelStages) :
    ((organizedAccounts fetched).map Prod.snd).flatten ~ fetched := by
  have hmap : (organizedAccounts fetched).map Prod.snd =
      funnelStages.map fun st => sortByFollowUp (fetched.filter fun a => a.stage = st) := by
    simp [organizedAccounts, List.map_map, Function.comp]
  rw [hmap]
  have h1 := flatten_map_perm_congr funnelStages
    (fun st => sortByFollowUp (fetched.filter fun a => a.stage = st))
    (fun st => fetched.filter fun a => a.stage = st)
    (fun st _ => sortByFollowUp_perm _)
  refine h1.trans ((flatten_filter_stages_perm funnelStages (by decide) fetched).trans ?_)
  have hself : (fetched.filter fun a => decide (a.stage ∈ funnelStages)) = fetched :=
    List.filter_eq_self.mpr fun a ha => decide_eq_true (h a ha)
  rw [hself]

/-! ### Claims -/

/-- C1: for every account being saved, if its stage is Closed Won the
recomputed deal score is exactly 100, and if its stage is Closed Lost it
is exactly 0, for every possible response (or non-response) of the
external AI endpoint. -/
theorem recalc_score_terminal_stages (data : FormData) (resp : Option String) :
    (data.stage = "Closed Won" → recalculateDealScore data resp = some 100) ∧
    (data.stage = "Closed Lost" → recalculateDealScore data resp = some 0) := by
  constructor
  · intro h
    simp [recalculateDealScore, h]
  · intro h
    simp [recalculateDealScore, h]

/-- Witness for C1: the terminal-stage scores at concrete forms, with and
without an AI reply. -/
theorem recalc_score_terminal_stages_witness :
    recalculateDealScore wonForm none = some 100 ∧
    recalculateDealScore lostForm (some "7") = some 0 :=
  ⟨(recalc_score_terminal_stages wonForm none).1 rfl,
   (recalc_score_terminal_stages lostForm (some "7")).2 rfl⟩

/-- C5: a submission with stage Closed Lost and an empty `lostReason`
fails the form's constraint validation, so neither the create nor the
update operation is invoked. -/
theorem closedLost_empty_reason_rejected (f : FormData) (editingExisting : Bool)
    (resp : Option String) (now : String)
    (hstage : f.stage = "Closed Lost") (hempty : f.lostReason = "") :
    submitForm f editingExisting resp now = none := by
  simp [submitForm, formValid, hstage, hempty]

/-- Witness for C5: a concrete Closed Lost form with every other required
field filled and no lost reason is not saved. -/
theorem closedLost_empty_reason_rejected_witness :
    submitForm lostForm true (some "10") "2024-05-01" = none :=
  closedLost_empty_reason_rejected lostForm true (some "10") "2024-05-01" rfl rfl

/-- C6 counterexample: `" "` is a non-empty note text, yet `handleAddNote`
performs no append and no store write because the text is blank after
trimming. -/
theorem addNote_blank_nonempty_no_write :
    " " ≠ "" ∧ handleAddNote " " (some sampleAccount) [] "2024-05-01T00:00:00Z" = none := by
  constructor
  · decide
  · decide

/-- C6 (amended): for every existing account and every note text that is
non-blank (non-empty after trimming), `handleAddNote` appends exactly one
`{text, timestamp}` entry and issues the single-field `notes` update
against that account's document. -/
theorem addNote_appends_and_persists (newNote : String) (acc : Account)
    (formNotes : List Note) (now : String) (h : jsTrim newNote ≠ "") :
    handleAddNote newNote (some acc) formNotes now =
      some ⟨acc.id, formNotes ++ [{ text := newNote, timestamp := now, sentiment := none }]⟩ := by
  simp [handleAddNote, h]

/-- Witness for C6: appending a concrete note to a concrete account. -/
theorem addNote_appends_and_persists_witness :
    handleAddNote "Call went well" (some sampleAccount) [] "2024-05-01T00:00:00Z" =
      some ⟨"a1", [{ text := "Call went well", timestamp := "2024-05-01T00:00:00Z"
                     sentiment := none }]⟩ :=
  addNote_appends_and_persists "Call went well" sampleAccount [] "2024-05-01T00:00:00Z"
    (by decide)

/-- C8: every created account is stored with stage Business Intel, deal
score 50, empty notes, numeric coercion of `value`/`monthlyValue`
(defaulting to 0) and `createdAt` set to the creation time, regardless of
what the caller supplied; concretely, the Acme scenario stores `value = 1000`
and `monthlyValue = 100`. -/
theorem addAccount_creation_defaults (newAccount : FormData) (now : String) :
    (handleAddAccount newAccount now).stage = "Business Intel" ∧
    (handleAddAccount newAccount now).dealScore = some 50 ∧
    (handleAddAccount newAccount now).notes = [] ∧
    (handleAddAccount newAccount now).value = numOr0 newAccount.value ∧
    (handleAddAccount newAccount now).monthlyValue = numOr0 newAccount.monthlyValue ∧
    (handleAddAccount newAccount now).createdAt = now ∧
    (handleAddAccount acmeForm "t0").value = 1000 ∧
    (handleAddAccount acmeForm "t0").monthlyValue = 100 :=
  ⟨rfl, rfl, rfl, rfl, rfl, rfl, by decide, by decide⟩

/-- C9 counterexample: on a malformed (unparsable) AI reply the handler
reaches no `console.error` — the `JSON.parse` exception escapes instead,
and the busy state is never cleared.  The form fields do stay unchanged. -/
theorem scanCard_malformed_cex :
    (handleScanBusinessCard failingParse (some "not json") emptyForm).consoleErrors = [] ∧
    (handleScanBusinessCard failingParse (some "not json") emptyForm).threw = true ∧
    (handleScanBusinessCard failingParse (some "not json") emptyForm).loadingAI = true ∧
    (handleScanBusinessCard failingParse (some "not json") emptyForm).formData = emptyForm := by
  refine ⟨?_, ?_, ?_, ?_⟩ <;> decide

/-- C9 (amended): for every scan whose AI reply is present but fails to
parse, the form fields remain unchanged and no user-visible error message
appears, but the code logs no error itself: the parse failure escapes as
an uncaught exception and the loading indicator stays set. -/
theorem scanCard_malformed_silent (parse : String → Option Contact) (t : String)
    (f : FormData) (hne : t ≠ "") (hbad : parse (cleanJson t) = none) :
    handleScanBusinessCard parse (some t) f =
      { formData := f, loadingAI := true, dictationStatus := "Scanning card..."
        consoleErrors := [], threw := true } := by
  simp [handleScanBusinessCard, scanOnLoad, hne, hbad]

/-- Witness for C9: a concrete malformed reply. -/
theorem scanCard_malformed_silent_witness :
    handleScanBusinessCard failingParse (some "oops") newLeadForm =
      { formData := newLeadForm, loadingAI := true, dictationStatus := "Scanning card..."
        consoleErrors := [], threw := true } :=
  scanCard_malformed_silent failingParse "oops" newLeadForm (by decide) rfl

/-- C10: a drop issues exactly one update, addressed to the dragged
account's document, whose payload is the single field `stage`; applying
it changes only that document's `stage` and leaves every other document
untouched; a store failure is caught, surfaced as the generic message,
and leaves the store unchanged. -/
theorem dragEnd_single_stage_update (item : Account) (store : List Account)
    (stageName : String) :
    handleDragEnd (some item) true stageName =
      some (item.id, [("stage", FieldVal.str stageName)]) ∧
    updateDocIn store item.id [("stage", FieldVal.str stageName)] =
      store.map (fun d => if d.id = item.id then { d with stage := stageName } else d) ∧
    (∀ d ∈ store, d.id ≠ item.id →
      d ∈ updateDocIn store item.id [("stage", FieldVal.str stageName)]) ∧
    handleDragEndApply (some item) true stageName store true =
      (store, some "Failed to update account stage.") := by
  refine ⟨rfl, rfl, ?_, rfl⟩
  intro d hd hne
  have hmem := List.mem_map_of_mem
    (fun d => if d.id = item.id then { d with stage := stageName } else d) hd
  have key : (fun d => if d.id = item.id then { d with stage := stageName } else d) d = d := by
    simp [hne]
  rw [key] at hmem
  exact hmem

/-- Witness for C10: the spec's scenario — dragging `a1` from New Leads to
Qualified Opportunities leaves the other document `a2` untouched. -/
theorem dragEnd_single_stage_update_witness :
    otherAccount ∈ [sampleAccount, otherAccount] ∧
    otherAccount ∈ updateDocIn [sampleAccount, otherAccount] sampleAccount.id
      [("stage", FieldVal.str "Qualified Opportunities")] :=
  ⟨by decide,
   (dragEnd_single_stage_update sampleAccount [sampleAccount, otherAccount]
      "Qualified Opportunities").2.2.1 otherAccount (by decide) (by decide)⟩

/-- C2: partitioning a snapshot's accounts into the nine stage buckets and
re-merging all buckets is a permutation of the original list — no account
is lost and none is duplicated — whenever every account's stage is one of
the nine funnel-stage names (the spec's stated invariant). -/
theorem snapshot_partition_merge_perm (fetched : List Account)
    (h : ∀ a ∈ fetched, a.stage ∈ funnelStages) :
    ((organizedAccounts fetched).map Prod.snd).flatten ~ fetched :=
  organized_flatten_perm fetched h

/-- Witness for C2: re-merging the organized demo snapshot. -/
theorem snapshot_partition_merge_perm_witness :
    ((organizedAccounts demoAccounts).map Prod.snd).flatten ~ demoAccounts :=
  snapshot_partition_merge_perm demoAccounts (by decide)

/-- C3: every bucket the snapshot handler produces is non-decreasing in
`nextFollowUpDate` (null dates mapping to the far-future sentinel), and —
since every real follow-up date is below the sentinel — each account
without a follow-up date comes after every account that has one. -/
theorem buckets_sorted_by_followUp (fetched : List Account)
    (hdates : ∀ a ∈ fetched, ∀ d, a.nextFollowUpDate = some d → d < sentinelMs) :
    ∀ p ∈ organizedAccounts fetched,
      p.2.Pairwise followUpLE ∧
      p.2.Pairwise (fun x y => x.nextFollowUpDate = none → y.nextFollowUpDate = none) := by
  intro p hp
  obtain ⟨st, _, rfl⟩ := List.mem_map.mp hp
  have hsorted : (sortByFollowUp (fetched.filter fun a => a.stage = st)).Pairwise followUpLE :=
    List.sorted_insertionSort followUpLE _
  refine ⟨hsorted, hsorted.imp_of_mem ?_⟩
  intro x y hx hy hle hxnone
  have hyf : y ∈ fetched := by
    have : y ∈ fetched.filter fun a => a.stage = st :=
      (List.mem_insertionSort followUpLE).mp hy
    exact (List.mem_filter.mp this).1
  cases hdate : y.nextFollowUpDate with
  | none => rfl
  | some d =>
    exfalso
    have hd : d < sentinelMs := hdates y hyf d hdate
    have hkx : followUpKey x = sentinelMs := by
      simp [followUpKey, hxnone]
    have hky : followUpKey y = d := by
      simp [followUpKey, hdate]
    have : sentinelMs ≤ d := by
      rw [← hkx, ← hky]
      exact hle
    exact absurd hd (Nat.not_lt.mpr this)

/-- Witness for C3: the sorted New Leads bucket of a snapshot that has a
dated and an undated account in that stage. -/
theorem buckets_sorted_by_followUp_witness :
    ("New Leads",
        sortByFollowUp (List.filter (fun a => a.stage = "New Leads")
          [sampleAccount, { otherAccount with stage := "New Leads" }])).2.Pairwise
        followUpLE ∧
    ("New Leads",
        sortByFollowUp (List.filter (fun a => a.stage = "New Leads")
          [sampleAccount, { otherAccount with stage := "New Leads" }])).2.Pairwise
        (fun x y => x.nextFollowUpDate = none → y.nextFollowUpDate = none) :=
  buckets_sorted_by_followUp [sampleAccount, { otherAccount with stage := "New Leads" }]
    (by decide) _ (by decide)

/-- Folding the running sum is adding the mapped sum. -/
theorem foldl_add_valueOrZero (l : List Account) (init : ℚ) :
    l.foldl (fun sum acc => sum + valueOrZero acc) init = init + (l.map valueOrZero).sum := by
  induction l generalizing init with
  | nil => simp
  | cons a l ih => simp [ih, add_assoc]

/-- C4: the displayed total pipeline value equals the sum of `value`
(missing values counting as 0) over exactly the fetched accounts whose
stage is none of Closed Won, Closed Lost and Business Intel, whenever
every account carries one of the nine stage names. -/
theorem totalPipelineValue_eq_active_sum (fetched : List Account)
    (h : ∀ a ∈ fetched, a.stage ∈ funnelStages) :
    totalPipelineValue (organizedAccounts fetched) =
      ((fetched.filter fun a => isActiveStage a.stage).map valueOrZero).sum := by
  unfold totalPipelineValue
  rw [foldl_add_valueOrZero, zero_add]
  exact List.Perm.sum_eq
    (((organized_flatten_perm fetched h).filter _).map valueOrZero)

/-- Witness for C4: the demo snapshot's board total matches the active
accounts' value sum (the Closed Won account is excluded). -/
theorem totalPipelineValue_eq_active_sum_witness :
    totalPipelineValue (organizedAccounts demoAccounts) =
      ((demoAccounts.filter fun a => isActiveStage a.stage).map valueOrZero).sum :=
  totalPipelineValue_eq_active_sum demoAccounts (by decide)

end CRM
